import Mathlib

/-!
Verification of the DoctorList component
(src/src/components/doctor-connect/DoctorList.tsx).

The component renders a searchable list of doctors and a call dialog.
We embed its data model, the search filter, and the four event handlers
(contact attempt, WhatsApp call, direct call, cancel) as pure Lean
functions.  UI state is the pair of useState cells
(callingDoctor, showCallDialog); side effects (toasts, opening a
URL, navigating) are returned as an explicit effect list.
-/

namespace DoctorConnect

/-- Availability status of a doctor: the union type
`"Available" | "Busy" | "Away"` from the Doctor interface. -/
inductive Availability where
  | Available
  | Busy
  | Away
deriving DecidableEq, Repr

/-- String form of an availability value, as stored in the
TypeScript record. -/
def availabilityLabel : Availability → String
  | .Available => "Available"
  | .Busy => "Busy"
  | .Away => "Away"

/-- The Doctor interface.  The field `rating: number` is modelled as a
rational number; no claim depends on its arithmetic. -/
structure Doctor where
  id : String
  name : String
  specialty : String
  availability : Availability
  image : String
  rating : Rat
  experience : String
  phone : String
deriving DecidableEq, Repr

/-- Lower-cased character list of a string: the embedding of JavaScript
`s.toLowerCase()` (character-wise case folding). -/
def lowerData (s : String) : List Char := s.data.map Char.toLower

/-- Lower-cased string, used where the source keeps the result as a
string (`doctor.availability.toLowerCase()`). -/
def lowerString (s : String) : String := ⟨lowerData s⟩

/-- True iff the second list starts with the first list. -/
def headMatches : List Char → List Char → Bool
  | [], _ => true
  | _ :: _, [] => false
  | a :: as, b :: bs => a == b && headMatches as bs

/-- The embedding of JavaScript `hay.includes(needle)`: needle occurs
as a contiguous substring of hay.  An empty needle always matches. -/
def containsSub : List Char → List Char → Bool
  | [], needle => needle.isEmpty
  | c :: t, needle => headMatches needle (c :: t) || containsSub t needle

/-- Search predicate of filteredDoctors (DoctorList.tsx lines 46-49):
the lower-cased search term occurs in the lower-cased name or in the
lower-cased specialty. -/
def matchesSearch (searchTerm : String) (doctor : Doctor) : Bool :=
  containsSub (lowerData doctor.name) (lowerData searchTerm) ||
  containsSub (lowerData doctor.specialty) (lowerData searchTerm)

/-- The filteredDoctors computation: `doctors.filter(...)`. -/
def filteredDoctors (doctors : List Doctor) (searchTerm : String) : List Doctor :=
  doctors.filter (matchesSearch searchTerm)

/-- Toast variant: shadcn toasts are either the default style or the
destructive style. -/
inductive Variant where
  | default
  | destructive
deriving DecidableEq, Repr

/-- Observable side effects of the handlers: a toast notification,
`window.open(url, "_blank")`, or `window.location.href = url`. -/
inductive Effect where
  | toast (title description : String) (variant : Variant)
  | openUrl (url : String)
  | navigate (url : String)
deriving DecidableEq, Repr

/-- The dialog-related component state: the callingDoctor and
showCallDialog useState cells. -/
structure DialogState where
  callingDoctor : Option Doctor
  showCallDialog : Bool
deriving DecidableEq, Repr

/-- The Closed dialog state of the spec: no target, not visible.  It is
also the initial state (`useState<Doctor | null>(null)` and
`useState(false)`). -/
def closedDialog : DialogState :=
  { callingDoctor := none, showCallDialog := false }

/-- The description string of the unavailable-doctor toast
(DoctorList.tsx line 57). -/
def unavailableMessage (d : Doctor) : String :=
  d.name ++ " is currently " ++ lowerString (availabilityLabel d.availability)
    ++ ". Please try again later."

/-- The handleCallDoctor handler (lines 51-65): a non-Available
doctor yields a destructive toast and no state change; an Available
doctor becomes the dialog target and the dialog is shown. -/
def handleCallDoctor (d : Doctor) (st : DialogState) : DialogState × List Effect :=
  if d.availability ≠ Availability.Available then
    (st, [Effect.toast "Doctor Unavailable" (unavailableMessage d) Variant.destructive])
  else
    ({ callingDoctor := some d, showCallDialog := true }, [])

/-- The handleWhatsAppCall handler (lines 67-73): with a target set,
open `https://wa.me/` ++ phone in a new tab and hide the dialog;
without a target, do nothing. -/
def handleWhatsAppCall (st : DialogState) : DialogState × List Effect :=
  match st.callingDoctor with
  | none => (st, [])
  | some d =>
      ({ st with showCallDialog := false },
       [Effect.openUrl ("https://wa.me/" ++ d.phone)])

/-- The mobile-device check of handleDirectCall (line 77): the
case-insensitive regex `/iPhone|iPad|iPod|Android/i` tested against the
user-agent string. -/
def isMobileUA (ua : String) : Bool :=
  containsSub (lowerData ua) (lowerData "iPhone") ||
  containsSub (lowerData ua) (lowerData "iPad") ||
  containsSub (lowerData ua) (lowerData "iPod") ||
  containsSub (lowerData ua) (lowerData "Android")

/-- The handleDirectCall handler (lines 75-88): with a target set, on
mobile navigate to `tel:` ++ phone, otherwise show a default-variant
toast; in both branches hide the dialog.  Without a target, do
nothing. -/
def handleDirectCall (ua : String) (st : DialogState) : DialogState × List Effect :=
  match st.callingDoctor with
  | none => (st, [])
  | some d =>
      if isMobileUA ua then
        ({ st with showCallDialog := false },
         [Effect.navigate ("tel:" ++ d.phone)])
      else
        ({ st with showCallDialog := false },
         [Effect.toast "Desktop Detected"
           "Direct calling is only available on mobile devices." Variant.default])

/-- The cancel button of the dialog footer (lines 228-234):
`onClick={() => setShowCallDialog(false)}`, no other effect. -/
def cancelDialog (st : DialogState) : DialogState × List Effect :=
  ({ st with showCallDialog := false }, [])

/-- Full component state: the externally supplied doctor list together
with the searchTerm cell and the dialog state. -/
structure ComponentState where
  doctors : List Doctor
  searchTerm : String
  dialog : DialogState
deriving DecidableEq, Repr

/-- The user-driven operations of the component. -/
inductive Action where
  | setSearch (s : String)
  | attemptCall (d : Doctor)
  | whatsApp
  | directCall (ua : String)
  | cancel
deriving DecidableEq, Repr

/-- One event-handler step of the component. -/
def step (st : ComponentState) (a : Action) : ComponentState × List Effect :=
  match a with
  | .setSearch s => ({ st with searchTerm := s }, [])
  | .attemptCall d =>
      let r := handleCallDoctor d st.dialog
      ({ st with dialog := r.1 }, r.2)
  | .whatsApp =>
      let r := handleWhatsAppCall st.dialog
      ({ st with dialog := r.1 }, r.2)
  | .directCall ua =>
      let r := handleDirectCall ua st.dialog
      ({ st with dialog := r.1 }, r.2)
  | .cancel =>
      let r := cancelDialog st.dialog
      ({ st with dialog := r.1 }, r.2)

/-- Run a sequence of operations, keeping only the final state. -/
def runActions (st : ComponentState) : List Action → ComponentState
  | [] => st
  | a :: rest => runActions (step st a).1 rest

/-- A sample doctor record used as a concrete input. -/
def sampleDoctor : Doctor :=
  { id := "1"
    name := "Dr. Sarah Johnson"
    specialty := "Cardiologist"
    availability := Availability.Available
    image := ""
    rating := 4
    experience := "10 years"
    phone := "15551234567" }

/-- A sample Busy doctor record used as a concrete input. -/
def busyDoctor : Doctor :=
  { sampleDoctor with id := "2", name := "Dr. Michael Chen", availability := Availability.Busy }

/-- Unfolding of lowerString to lowerData. -/
theorem lowerString_data (s : String) : (lowerString s).data = lowerData s := rfl

/-- headMatches decides the list-prefix relation. -/
theorem headMatches_iff (n h : List Char) :
    headMatches n h = true ↔ ∃ q, h = n ++ q := by
  induction n generalizing h with
  | nil => simp [headMatches]
  | cons a as ih =>
    cases h with
    | nil => simp [headMatches]
    | cons b bs =>
      simp only [headMatches, Bool.and_eq_true, beq_iff_eq, ih, List.cons_append,
        List.cons.injEq]
      constructor
      · rintro ⟨rfl, q, rfl⟩; exact ⟨q, rfl, rfl⟩
      · rintro ⟨q, rfl, rfl⟩; exact ⟨rfl, q, rfl⟩

/-- containsSub decides the mathematical contiguous-substring relation
(Mathlib list infixes). -/
theorem containsSub_iff (h n : List Char) :
    containsSub h n = true ↔ n <:+: h := by
  induction h with
  | nil =>
    simp only [containsSub, List.isEmpty_iff]
    constructor
    · rintro rfl; exact ⟨[], [], rfl⟩
    · rintro ⟨p, q, e⟩
      rcases List.append_eq_nil.mp e with ⟨e1, e2⟩
      rcases List.append_eq_nil.mp e1 with ⟨_, e3⟩
      exact e3
  | cons c t ih =>
    simp only [containsSub, Bool.or_eq_true, ih, headMatches_iff]
    constructor
    · rintro (⟨q, e⟩ | ⟨p, q, e⟩)
      · exact ⟨[], q, by simpa using e.symm⟩
      · exact ⟨c :: p, q, by simp [e]⟩
    · rintro ⟨p, q, e⟩
      cases p with
      | nil =>
        simp only [List.nil_append] at e
        exact Or.inl ⟨q, e.symm⟩
      | cons x p2 =>
        rw [List.cons_append, List.cons_append] at e
        injection e with e1 e2
        exact Or.inr ⟨p2, q, e2⟩

/-- An empty search needle matches every haystack, as JavaScript
includes does. -/
theorem containsSub_nil (l : List Char) : containsSub l [] = true := by
  cases l <;> simp [containsSub, headMatches]

/-- Claim C1: for every doctor list L and search string s, the filtered
list is exactly the doctors whose case-folded name or case-folded
specialty contains the case-folded search string as a contiguous
substring, in the same relative order as in L. -/
theorem filteredDoctors_matches_spec (L : List Doctor) (s : String) :
    filteredDoctors L s = L.filter (fun c =>
      decide (lowerData s <:+: lowerData c.name ∨
              lowerData s <:+: lowerData c.specialty)) := by
  refine List.filter_congr ?_
  intro c _
  rw [Bool.eq_iff_iff, decide_eq_true_eq]
  simp [matchesSearch, containsSub_iff]

/-- Claim C8: filtering with the empty search string is the identity:
it returns the full input list unchanged and in order. -/
theorem filteredDoctors_empty_search (L : List Doctor) :
    filteredDoctors L "" = L := by
  refine List.filter_eq_self.mpr ?_
  intro c _
  have h0 : lowerData "" = [] := rfl
  simp [matchesSearch, h0, containsSub_nil]

/-- Claim C2: a contact attempt on a non-Available doctor leaves the
dialog state unchanged and produces exactly one destructive toast whose
message contains the doctor name and the lower-cased availability
status. -/
theorem handleCallDoctor_unavailable (d : Doctor) (st : DialogState)
    (h : d.availability ≠ Availability.Available) :
    (handleCallDoctor d st).1 = st ∧
    ∃ msg, (handleCallDoctor d st).2 =
        [Effect.toast "Doctor Unavailable" msg Variant.destructive] ∧
      d.name.data <:+: msg.data ∧
      lowerData (availabilityLabel d.availability) <:+: msg.data := by
  rw [handleCallDoctor, if_pos h]
  refine ⟨rfl, unavailableMessage d, rfl, ?_, ?_⟩
  · refine ⟨[], (" is currently " ++ lowerString (availabilityLabel d.availability)
      ++ ". Please try again later.").data, ?_⟩
    simp [unavailableMessage, String.data_append]
  · refine ⟨(d.name ++ " is currently ").data,
      (". Please try again later." : String).data, ?_⟩
    simp [unavailableMessage, String.data_append, lowerString_data]

/-- Witness for claim C2 at a concrete Busy doctor and the initial
Closed dialog state. -/
theorem handleCallDoctor_unavailable_witness :
    (handleCallDoctor busyDoctor closedDialog).1 = closedDialog ∧
    ∃ msg, (handleCallDoctor busyDoctor closedDialog).2 =
        [Effect.toast "Doctor Unavailable" msg Variant.destructive] ∧
      busyDoctor.name.data <:+: msg.data ∧
      lowerData (availabilityLabel busyDoctor.availability) <:+: msg.data :=
  handleCallDoctor_unavailable busyDoctor closedDialog (by decide)

/-- Claim C3: a contact attempt on an Available doctor opens the dialog
with that doctor as target and emits no notification. -/
theorem handleCallDoctor_available (d : Doctor) (st : DialogState)
    (h : d.availability = Availability.Available) :
    handleCallDoctor d st =
      ({ callingDoctor := some d, showCallDialog := true }, []) := by
  simp [handleCallDoctor, h]

/-- Witness for claim C3 at a concrete Available doctor. -/
theorem handleCallDoctor_available_witness :
    handleCallDoctor sampleDoctor closedDialog =
      ({ callingDoctor := some sampleDoctor, showCallDialog := true }, []) :=
  handleCallDoctor_available sampleDoctor closedDialog rfl

/-- Counterexample for claim C4: from the Open state the WhatsApp
handler opens the wa.me link, but the resulting state is not the Closed
state of the spec, because the target doctor is retained. -/
theorem whatsApp_retains_target_cex :
    (handleWhatsAppCall { callingDoctor := some sampleDoctor, showCallDialog := true }).2
      = [Effect.openUrl "https://wa.me/15551234567"] ∧
    (handleWhatsAppCall { callingDoctor := some sampleDoctor, showCallDialog := true }).1
      ≠ closedDialog := by
  decide

/-- Claim C4 (amended): from the Open state with target d, the WhatsApp
handler performs exactly one outbound navigation to `https://wa.me/` ++
phone (verbatim, in a new browsing context) and hides the dialog; the
target reference is retained rather than cleared. -/
theorem handleWhatsAppCall_open (d : Doctor) (st : DialogState)
    (h1 : st.callingDoctor = some d) (h2 : st.showCallDialog = true) :
    handleWhatsAppCall st =
      ({ callingDoctor := some d, showCallDialog := false },
       [Effect.openUrl ("https://wa.me/" ++ d.phone)]) := by
  cases st
  cases h1
  cases h2
  rfl

/-- Witness for amended claim C4 at a concrete Open state. -/
theorem handleWhatsAppCall_open_witness :
    handleWhatsAppCall { callingDoctor := some sampleDoctor, showCallDialog := true } =
      ({ callingDoctor := some sampleDoctor, showCallDialog := false },
       [Effect.openUrl ("https://wa.me/" ++ sampleDoctor.phone)]) :=
  handleWhatsAppCall_open sampleDoctor _ rfl rfl

/-- Counterexample for claim C5: on a desktop user agent the
direct-call handler emits the informational toast, but the resulting
state is not the Closed state of the spec, because the target doctor is
retained. -/
theorem directCall_desktop_retains_target_cex :
    isMobileUA "Mozilla Windows NT" = false ∧
    (handleDirectCall "Mozilla Windows NT"
        { callingDoctor := some sampleDoctor, showCallDialog := true }).2
      = [Effect.toast "Desktop Detected"
          "Direct calling is only available on mobile devices." Variant.default] ∧
    (handleDirectCall "Mozilla Windows NT"
        { callingDoctor := some sampleDoctor, showCallDialog := true }).1
      ≠ closedDialog := by
  decide

/-- Claim C5 (amended): from the Open state on a non-mobile user agent,
the direct-call handler emits exactly one default-variant toast saying
direct calling is mobile-only, performs no navigation, and hides the
dialog; the target reference is retained rather than cleared. -/
theorem handleDirectCall_desktop (ua : String) (d : Doctor) (st : DialogState)
    (h1 : st.callingDoctor = some d) (h2 : st.showCallDialog = true)
    (hm : isMobileUA ua = false) :
    handleDirectCall ua st =
      ({ callingDoctor := some d, showCallDialog := false },
       [Effect.toast "Desktop Detected"
         "Direct calling is only available on mobile devices." Variant.default]) := by
  cases st
  cases h1
  cases h2
  simp [handleDirectCall, hm]

/-- Witness for amended claim C5 at a concrete Open state and desktop
user agent. -/
theorem handleDirectCall_desktop_witness :
    handleDirectCall "Mozilla Windows NT"
        { callingDoctor := some sampleDoctor, showCallDialog := true } =
      ({ callingDoctor := some sampleDoctor, showCallDialog := false },
       [Effect.toast "Desktop Detected"
         "Direct calling is only available on mobile devices." Variant.default]) :=
  handleDirectCall_desktop "Mozilla Windows NT" sampleDoctor _ rfl rfl (by decide)

/-- Counterexample for claim C6: on a mobile user agent the direct-call
handler navigates to the tel link, but the resulting state is not the
Closed state of the spec, because the target doctor is retained. -/
theorem directCall_mobile_retains_target_cex :
    isMobileUA "iPhone" = true ∧
    (handleDirectCall "iPhone"
        { callingDoctor := some sampleDoctor, showCallDialog := true }).2
      = [Effect.navigate "tel:15551234567"] ∧
    (handleDirectCall "iPhone"
        { callingDoctor := some sampleDoctor, showCallDialog := true }).1
      ≠ closedDialog := by
  decide

/-- Claim C6 (amended): from the Open state with target d on a mobile
user agent, the direct-call handler performs exactly one navigation to
`tel:` ++ phone, emits no notification, and hides the dialog; the
target reference is retained rather than cleared. -/
theorem handleDirectCall_mobile (ua : String) (d : Doctor) (st : DialogState)
    (h1 : st.callingDoctor = some d) (h2 : st.showCallDialog = true)
    (hm : isMobileUA ua = true) :
    handleDirectCall ua st =
      ({ callingDoctor := some d, showCallDialog := false },
       [Effect.navigate ("tel:" ++ d.phone)]) := by
  cases st
  cases h1
  cases h2
  simp [handleDirectCall, hm]

/-- Witness for amended claim C6 at a concrete Open state and mobile
user agent. -/
theorem handleDirectCall_mobile_witness :
    handleDirectCall "iPhone"
        { callingDoctor := some sampleDoctor, showCallDialog := true } =
      ({ callingDoctor := some sampleDoctor, showCallDialog := false },
       [Effect.navigate ("tel:" ++ sampleDoctor.phone)]) :=
  handleDirectCall_mobile "iPhone" sampleDoctor _ rfl rfl (by decide)

/-- Counterexample for claim C7: cancel has no side effect, but the
resulting state is not the Closed state of the spec, because the target
doctor is retained. -/
theorem cancel_retains_target_cex :
    (cancelDialog { callingDoctor := some sampleDoctor, showCallDialog := true }).2 = [] ∧
    (cancelDialog { callingDoctor := some sampleDoctor, showCallDialog := true }).1
      ≠ closedDialog := by
  decide

/-- Claim C7 (amended): from the Open state, cancel hides the dialog
and performs no side effects (no navigation, no notification); the
target reference is retained rather than cleared. -/
theorem cancelDialog_open (d : Doctor) (st : DialogState)
    (h1 : st.callingDoctor = some d) (h2 : st.showCallDialog = true) :
    cancelDialog st =
      ({ callingDoctor := some d, showCallDialog := false }, []) := by
  cases st
  cases h1
  cases h2
  rfl

/-- Witness for amended claim C7 at a concrete Open state. -/
theorem cancelDialog_open_witness :
    cancelDialog { callingDoctor := some sampleDoctor, showCallDialog := true } =
      ({ callingDoctor := some sampleDoctor, showCallDialog := false }, []) :=
  cancelDialog_open sampleDoctor _ rfl rfl

/-- Every single step of the component keeps the doctors list intact. -/
theorem step_preserves_doctors (st : ComponentState) (a : Action) :
    (step st a).1.doctors = st.doctors := by
  cases a <;> rfl

/-- Claim C9: no sequence of component operations (search updates,
contact attempts, WhatsApp, direct call, cancel) ever changes the
supplied doctors list; every record keeps its initial field values. -/
theorem runActions_preserves_doctors (st : ComponentState) (acts : List Action) :
    (runActions st acts).doctors = st.doctors := by
  induction acts generalizing st with
  | nil => rfl
  | cons a rest ih =>
    calc (runActions st (a :: rest)).doctors
        = (step st a).1.doctors := ih (step st a).1
      _ = st.doctors := step_preserves_doctors st a

/-- Claim C10: with no target doctor set, both the WhatsApp handler and
the direct-call handler are complete no-ops: no effects, state
unchanged. -/
theorem handlers_noop_without_target (ua : String) (st : DialogState)
    (h : st.callingDoctor = none) :
    handleWhatsAppCall st = (st, []) ∧ handleDirectCall ua st = (st, []) := by
  cases st
  cases h
  exact ⟨rfl, rfl⟩

/-- Witness for claim C10 at the initial Closed state and a mobile user
agent. -/
theorem handlers_noop_without_target_witness :
    handleWhatsAppCall closedDialog = (closedDialog, []) ∧
    handleDirectCall "iPhone" closedDialog = (closedDialog, []) :=
  handlers_noop_without_target "iPhone" closedDialog rfl

end DoctorConnect
